import Mathlib

/-!
Verification of the duckietown-visual-servo pose-estimation pipeline.

The development shallowly embeds the two Python source files:
* `src/visual_servo/estimation.py` — class `PoseEstimator` (pattern
  generation, calibration-profile selection, per-frame pose estimation);
* `src/visual_servo_control.py` — free functions `calc_circle_pattern`
  and `get_pose` (a second, divergent implementation of the same geometry).

Numeric values are modelled exactly: the Python float literals are carried
as rationals (`ℚ`), and the trigonometric per-frame computation is carried
over the reals (`ℝ`).  The external OpenCV routines
(`cv2.findCirclesGrid`, `cv2.solvePnP`, `cv2.getOptimalNewCameraMatrix`,
`cv2.SimpleBlobDetector`) are not part of this repository; they are
modelled as parameters (a `CV` record of uninterpreted functions, and an
explicit `new_camera_matrix` argument), so every theorem quantifies over
their possible behaviours.
-/

/-- A 3D pattern point, as a row of the `rows*cols × 3` numpy array built by
`_calc_circle_pattern`. -/
abbrev Pt3 := ℚ × ℚ × ℚ

/-- A detected 2D image point (a row of the `centers[:, 0, :]` array). -/
abbrev Pt2 := ℝ × ℝ

/-- Embedding of `PoseEstimator._calc_circle_pattern` (estimation.py, lines
114–126) and of the identical free function `calc_circle_pattern`
(visual_servo_control.py, lines 94–111, with `circlepattern_dist = 0.0125`
hardcoded).  The source fills a zero array of `height * width` rows, writing
row `i + j * width` for each `i < width`, `j < height`; since that indexing
is a bijection onto `[0, height*width)` with `i = k % width` and
`j = k / width`, the resulting array is the list below.  The third column of
the zero array is never written, so `z = 0`. -/
def calc_circle_pattern (height width : ℕ) (circle_pattern_dist : ℚ) : List Pt3 :=
  (List.range (height * width)).map fun k =>
    (circle_pattern_dist * ((k % width : ℕ) : ℚ) -
       circle_pattern_dist * ((width : ℚ) - 1) / 2,
     circle_pattern_dist * ((k / width : ℕ) : ℚ) -
       circle_pattern_dist * ((height : ℚ) - 1) / 2,
     0)

/-- The centroid of a finite list of 3D points, coordinatewise sum divided
by the number of points (the `ℚ` convention `0 / 0 = 0` applies to the
empty list). -/
def centroid (ps : List Pt3) : Pt3 :=
  ((ps.map fun p => p.1).sum / (ps.length : ℚ),
   (ps.map fun p => p.2.1).sum / (ps.length : ℚ),
   (ps.map fun p => p.2.2).sum / (ps.length : ℚ))

/-- The raw intrinsic matrix hardcoded in `initialize_camera_matrix`
(estimation.py, lines 56–58) and in the free `get_pose`
(visual_servo_control.py, lines 116–126), as the flat 9-entry array built
by `np.array(...)` before the `reshape((3, 3))`. -/
def camera_matrix_raw : List ℚ :=
  [305.5718893575089, 0, 303.0797142544728,
   0, 308.8338858195428, 231.8845403702499,
   0, 0, 1]

/-- The nominal distortion coefficients (estimation.py, line 59;
visual_servo_control.py, line 127). -/
def distortion_coefs_nominal : List ℚ :=
  [-0.2, 0.0305, 0.0005859930422629722, -0.0006697840226199427, 0]

/-- The zero distortion vector paired with pre-rectified profiles
(estimation.py, lines 64 and 70). -/
def zero_distortion : List ℚ := [0, 0, 0, 0, 0]

/-- The independently calibrated alternate intrinsic matrix of profile 4
(estimation.py, lines 75–77). -/
def camera_matrix_alt : List ℚ :=
  [307.7379294605756, 0, 329.692367951685,
   0, 314.987773443905, 244.4605588877848,
   0, 0, 1]

/-- The alternate profile's distortion coefficients (estimation.py,
lines 78–80). -/
def distortion_coefs_alt : List ℚ :=
  [-0.2565888993516047, 0.04481160508242147, -0.00505275149956019,
   0.00130856936797665, 0]

/-- Embedding of `PoseEstimator.initialize_camera_matrix` (estimation.py,
lines 47–80).  `new_camera_matrix` is the result of the external call
`cv2.getOptimalNewCameraMatrix(camera_matrix, distortion_coefs, (640, 480), 0)`,
modelled as a parameter because OpenCV is outside this repository.  The
method assigns `self.camera_matrix` and `self.distortion_coefs` only in the
five recognized branches; for any other `camera_mode` it falls through and
both fields keep the value `None` set by `__init__`. -/
def initialize_camera_matrix (new_camera_matrix : List ℚ) (camera_mode : ℤ) :
    Option (List ℚ) × Option (List ℚ) :=
  if camera_mode = 0 then (some new_camera_matrix, some zero_distortion)
  else if camera_mode = 1 then (some new_camera_matrix, some distortion_coefs_nominal)
  else if camera_mode = 2 then (some camera_matrix_raw, some zero_distortion)
  else if camera_mode = 3 then (some camera_matrix_raw, some distortion_coefs_nominal)
  else if camera_mode = 4 then (some camera_matrix_alt, some distortion_coefs_alt)
  else (none, none)

/-- The state of a `PoseEstimator` instance: every attribute `__init__`
assigns (estimation.py, lines 33–45).  The blob detector is an external
OpenCV object; the estimator keeps the two parameters it was built from. -/
structure PoseEstimator where
  detector : ℤ × ℤ
  circle_pattern_dist : ℚ
  height : ℕ
  width : ℕ
  circle_pattern : List Pt3
  target_distance : ℝ
  camera_matrix : Option (List ℚ)
  distortion_coefs : Option (List ℚ)
  counter : ℕ

/-- Embedding of `PoseEstimator.__init__` (estimation.py, lines 14–45):
builds the blob detector from `min_area` and `min_dist_between_blobs`,
stores the configuration, generates the circle pattern, sets
`camera_matrix` and `distortion_coefs` to `None` and then to whatever
`initialize_camera_matrix` assigns, and sets `counter` to 0.
`new_camera_matrix` is the external rectified matrix, as above.
The constructor is total: it returns an estimator for every `camera_mode`
and raises nothing. -/
def PoseEstimator.init (min_area min_dist_between_blobs : ℤ) (height width : ℕ)
    (circle_pattern_dist : ℚ) (target_distance : ℝ) (camera_mode : ℤ)
    (new_camera_matrix : List ℚ) : PoseEstimator :=
  { detector := (min_area, min_dist_between_blobs)
    circle_pattern_dist := circle_pattern_dist
    height := height
    width := width
    circle_pattern := calc_circle_pattern height width circle_pattern_dist
    target_distance := target_distance
    camera_matrix := (initialize_camera_matrix new_camera_matrix camera_mode).1
    distortion_coefs := (initialize_camera_matrix new_camera_matrix camera_mode).2
    counter := 0 }

/-- The per-frame external OpenCV routines, as uninterpreted functions over
an abstract image type.  `findCirclesGrid` takes the image, the
`patternSize = (width, height)` pair and the blob-detector parameters, and
returns `(detection, centers)`; `solvePnP` takes object points, image
points, camera matrix and distortion coefficients and returns
`(success, rotation_vector, translation_vector)`. -/
structure CV (Img : Type) where
  findCirclesGrid : Img → ℕ × ℕ → ℤ × ℤ → Bool × List Pt2
  solvePnP : List Pt3 → List Pt2 → Option (List ℚ) → Option (List ℚ) →
    Bool × (Fin 3 → ℝ) × (Fin 3 → ℝ)

/-- `np.rad2deg`: radians to degrees. -/
noncomputable def rad2deg (x : ℝ) : ℝ := x * 180 / Real.pi

/-- The value returned by a per-frame pose query: the detection flag and,
when found, `([y, z, x], theta_degrees)`. -/
abbrev PoseResult := Bool × Option ((ℝ × ℝ × ℝ) × ℝ)

/-- Embedding of `PoseEstimator.get_pose` (estimation.py, lines 82–112) as
an explicit state-passing function: the returned estimator is the state
after the call (the method body assigns no attribute, so both branches
return `self` unchanged).  The solver's success flag is discarded exactly
as the source's `_, rotation_vector, translation_vector = cv2.solvePnP(...)`
discards it. -/
noncomputable def PoseEstimator.get_pose {Img : Type} (cv : CV Img)
    (self : PoseEstimator) (obs : Img) : PoseEstimator × PoseResult :=
  let fc := cv.findCirclesGrid obs (self.width, self.height) self.detector
  let detection := fc.1
  let centers := fc.2
  if detection then
    let image_points := centers
    let sp := cv.solvePnP self.circle_pattern image_points self.camera_matrix
      self.distortion_coefs
    let rotation_vector := sp.2.1
    let translation_vector := sp.2.2
    let theta := rotation_vector 1
    let x_bumper := translation_vector 0
    let y_bumper := translation_vector 2
    let y_target := y_bumper - self.target_distance * Real.cos theta
    let x_target := x_bumper + self.target_distance * Real.sin theta
    (self, (detection, some ((y_target, 0, x_target), -rad2deg theta)))
  else
    (self, (detection, none))

/-- Embedding of the free function `get_pose` (visual_servo_control.py,
lines 114–188).  The module-level blob detector is built with
`minArea = 5`, `minDistBetweenBlobs = 1` (lines 88–91) and the grid is
searched with `patternSize = (8, 3)`.  `new_camera_matrix` again stands for
the external `cv2.getOptimalNewCameraMatrix` result computed at the top of
the function.  Each recognized option calls the solver (its `success` flag
is bound and ignored), then returns the raw translation components
`y = tvec[0]`, `x = tvec[2]` as `[y, 0, x]` and heading
`+rad2deg(rvec[1])`; every other case returns `(detection, np.array([]))`,
an empty payload modelled as `none`. -/
noncomputable def vsc_get_pose {Img : Type} (cv : CV Img)
    (new_camera_matrix : List ℚ) (obs : Img) (option : ℤ) : PoseResult :=
  let fc := cv.findCirclesGrid obs (8, 3) (5, 1)
  let detection := fc.1
  let centers := fc.2
  if detection ∧ option = 0 then
    let object_points := calc_circle_pattern 3 8 0.0125
    let sp := cv.solvePnP object_points centers (some new_camera_matrix)
      (some zero_distortion)
    let x := sp.2.2 2
    let y := sp.2.2 0
    let theta := rad2deg (sp.2.1 1)
    (detection, some ((y, 0, x), theta))
  else if detection ∧ option = 1 then
    let object_points := calc_circle_pattern 3 8 0.0125
    let sp := cv.solvePnP object_points centers (some new_camera_matrix)
      (some distortion_coefs_nominal)
    let x := sp.2.2 2
    let y := sp.2.2 0
    let theta := rad2deg (sp.2.1 1)
    (detection, some ((y, 0, x), theta))
  else if detection ∧ option = 2 then
    let object_points := calc_circle_pattern 3 8 0.0125
    let sp := cv.solvePnP object_points centers (some camera_matrix_raw)
      (some zero_distortion)
    let x := sp.2.2 2
    let y := sp.2.2 0
    let theta := rad2deg (sp.2.1 1)
    (detection, some ((y, 0, x), theta))
  else if detection ∧ option = 3 then
    let object_points := calc_circle_pattern 3 8 0.0125
    let sp := cv.solvePnP object_points centers (some camera_matrix_raw)
      (some distortion_coefs_nominal)
    let x := sp.2.2 2
    let y := sp.2.2 0
    let theta := rad2deg (sp.2.1 1)
    (detection, some ((y, 0, x), theta))
  else
    (detection, none)

/-- Modelled from the spec: a found result must carry its payload (the
spec's DetectionResult validity, `found` only with the full complement of
data; a `found = true` result with an empty payload is invalid). -/
def ValidFoundResult (r : PoseResult) : Prop := r.1 = true → r.2 ≠ none

/-- A concrete all-zero rotation vector for the closed instances below. -/
def rvecZero : Fin 3 → ℝ := fun _ => 0

/-- A concrete translation vector `(0, 0, 5)` for the closed instances
below. -/
def tvecFive : Fin 3 → ℝ := fun i => if i.val = 2 then 5 else 0

/-- Concrete externals over the trivial image type: the grid is detected
and the solve succeeds with rotation 0 and translation `(0, 0, 5)`. -/
def cvFound : CV Unit :=
  { findCirclesGrid := fun _ _ _ => (true, [])
    solvePnP := fun _ _ _ _ => (true, rvecZero, tvecFive) }

/-- Concrete externals: the grid is detected but the solver reports failure
(success flag `false`) with the same output vectors. -/
def cvSolveFailed : CV Unit :=
  { findCirclesGrid := fun _ _ _ => (true, [])
    solvePnP := fun _ _ _ _ => (false, rvecZero, tvecFive) }

/-- Concrete externals: the grid is not detected. -/
def cvNotFound : CV Unit :=
  { findCirclesGrid := fun _ _ _ => (false, [])
    solvePnP := fun _ _ _ _ => (true, rvecZero, tvecFive) }

/-- A concrete estimator: 3×8 pattern, spacing 0.0125, target distance 1,
profile 0. -/
def estimator0 : PoseEstimator :=
  PoseEstimator.init 5 1 3 8 (0.0125 : ℚ) (1 : ℝ) 0 camera_matrix_raw

/-- A list sum over `List.range` is the corresponding `Finset.range` sum. -/
theorem list_sum_range_map (f : ℕ → ℚ) (n : ℕ) :
    ((List.range n).map f).sum = ∑ k ∈ Finset.range n, f k := by
  induction n with
  | zero => simp
  | succ n ih =>
    rw [List.range_succ, List.map_append, List.sum_append, Finset.sum_range_succ, ih]
    simp

/-- Reindexing a sum over `[0, n*m)` by quotient and remainder modulo `m`. -/
theorem sum_range_mul_mod_div (g : ℕ → ℕ → ℚ) (n m : ℕ) :
    ∑ k ∈ Finset.range (n * m), g (k % m) (k / m) =
      ∑ j ∈ Finset.range n, ∑ i ∈ Finset.range m, g i j := by
  rcases Nat.eq_zero_or_pos m with hm | hm
  · subst hm; simp
  · induction n with
    | zero => simp
    | succ n ih =>
      rw [Nat.succ_mul, Finset.sum_range_add, ih, Finset.sum_range_succ]
      congr 1
      refine Finset.sum_congr rfl fun x hx => ?_
      have hx' : x < m := Finset.mem_range.mp hx
      rw [mul_comm n m, Nat.mul_add_mod, Nat.mul_add_div hm,
        Nat.mod_eq_of_lt hx', Nat.div_eq_of_lt hx', Nat.add_zero]

/-- Gauss sum cast to `ℚ`. -/
theorem sum_range_cast_q (n : ℕ) :
    ∑ i ∈ Finset.range n, (i : ℚ) = (n : ℚ) * ((n : ℚ) - 1) / 2 := by
  induction n with
  | zero => simp
  | succ n ih =>
    rw [Finset.sum_range_succ, ih]
    push_cast
    ring

/-- A coordinatewise sum over the generated pattern, as a double sum over
row and column indices. -/
theorem sum_pattern (h w : ℕ) (d : ℚ) (f : Pt3 → ℚ) :
    ((calc_circle_pattern h w d).map f).sum =
      ∑ j ∈ Finset.range h, ∑ i ∈ Finset.range w,
        f (d * (i : ℚ) - d * ((w : ℚ) - 1) / 2,
           d * (j : ℚ) - d * ((h : ℚ) - 1) / 2, 0) := by
  rw [calc_circle_pattern, List.map_map, list_sum_range_map]
  exact sum_range_mul_mod_div
    (fun i j => f (d * (i : ℚ) - d * ((w : ℚ) - 1) / 2,
                   d * (j : ℚ) - d * ((h : ℚ) - 1) / 2, 0)) h w

/-- Claim C2: pattern generation produces exactly `rows*cols` ordered 3D
points, and the point at flat index `i + j*cols` (for `i < cols`,
`j < rows`) has `x = spacing*i - spacing*(cols-1)/2`,
`y = spacing*j - spacing*(rows-1)/2` and `z = 0`. -/
theorem calc_circle_pattern_spec (height width : ℕ) (d : ℚ) (i j : ℕ)
    (hi : i < width) (hj : j < height) :
    (calc_circle_pattern height width d).length = height * width ∧
    (calc_circle_pattern height width d).getD (i + j * width) (0, 0, 0) =
      (d * (i : ℚ) - d * ((width : ℚ) - 1) / 2,
       d * (j : ℚ) - d * ((height : ℚ) - 1) / 2, 0) := by
  have hlen : (calc_circle_pattern height width d).length = height * width := by
    simp [calc_circle_pattern]
  refine ⟨hlen, ?_⟩
  have hidx : i + j * width < height * width := by
    calc i + j * width < width + j * width := by omega
    _ = (j + 1) * width := by ring
    _ ≤ height * width := Nat.mul_le_mul_right width hj
  have hidx2 : i + j * width < (calc_circle_pattern height width d).length := by
    rw [hlen]; exact hidx
  rw [List.getD_eq_getElem?_getD, List.getElem?_eq_getElem hidx2]
  simp only [calc_circle_pattern, List.getElem_map, List.getElem_range, Option.getD_some]
  rw [Nat.add_mul_mod_self_right, Nat.add_mul_div_right i j (by omega : 0 < width),
    Nat.mod_eq_of_lt hi, Nat.div_eq_of_lt hi, Nat.zero_add]

/-- Witness for C2 at `rows = 3`, `cols = 8`, `spacing = 0.0125`, `i = 2`,
`j = 1` (flat index 10). -/
theorem calc_circle_pattern_spec_witness :
    (calc_circle_pattern 3 8 (0.0125 : ℚ)).length = 24 ∧
    (calc_circle_pattern 3 8 (0.0125 : ℚ)).getD 10 (0, 0, 0) =
      (-(3 / 160 : ℚ), 0, 0) := by
  have h := calc_circle_pattern_spec 3 8 (0.0125 : ℚ) 2 1 (by decide) (by decide)
  obtain ⟨h1, h2⟩ := h
  refine ⟨by simpa using h1, ?_⟩
  have he : (2 : ℕ) + 1 * 8 = 10 := by decide
  rw [he] at h2
  rw [h2]
  norm_num

/-- Claim C6: for `rows = 3`, `cols = 8`, `spacing = 0.0125` the pattern has
exactly 24 points, and for every `rows`, `cols`, `spacing` the centroid of
the generated points is the origin. -/
theorem circle_pattern_count_and_centroid :
    (calc_circle_pattern 3 8 (0.0125 : ℚ)).length = 24 ∧
    ∀ (height width : ℕ) (d : ℚ),
      centroid (calc_circle_pattern height width d) = (0, 0, 0) := by
  constructor
  · simp [calc_circle_pattern]
  · intro h w d
    have hx : ((calc_circle_pattern h w d).map fun p => p.1).sum = 0 := by
      simp only [sum_pattern]
      have h1 : (∑ i ∈ Finset.range w, (d * (i : ℚ) - d * ((w : ℚ) - 1) / 2)) = 0 := by
        rw [Finset.sum_sub_distrib, ← Finset.mul_sum, sum_range_cast_q,
          Finset.sum_const, Finset.card_range, nsmul_eq_mul]
        ring
      rw [Finset.sum_congr rfl fun j _ => h1, Finset.sum_const, Finset.card_range, smul_zero]
    have hy : ((calc_circle_pattern h w d).map fun p => p.2.1).sum = 0 := by
      simp only [sum_pattern]
      have h2 : ∀ j ∈ Finset.range h,
          (∑ _i ∈ Finset.range w, (d * (j : ℚ) - d * ((h : ℚ) - 1) / 2)) =
            (w : ℚ) * (d * (j : ℚ) - d * ((h : ℚ) - 1) / 2) := fun j _ => by
        rw [Finset.sum_const, Finset.card_range, nsmul_eq_mul]
      rw [Finset.sum_congr rfl h2, ← Finset.mul_sum, Finset.sum_sub_distrib,
        ← Finset.mul_sum, sum_range_cast_q, Finset.sum_const, Finset.card_range,
        nsmul_eq_mul]
      ring
    have hz : ((calc_circle_pattern h w d).map fun p => p.2.2).sum = 0 := by
      simp only [sum_pattern]
      simp
    simp [centroid, hx, hy, hz]

/-- Claim C7: profile 0 selects the same intrinsic matrix as profile 1,
profile 2 the same as profile 3, and (whenever the externally computed
rectified matrix differs from the raw one, which is what rectification
produces here) profile 0's matrix differs from profile 2's; profiles 0 and 2
pair their matrices with the zero distortion vector, profiles 1 and 3 with
the nominal coefficients. -/
theorem camera_profile_selection (ncm : List ℚ) (h : ncm ≠ camera_matrix_raw) :
    (initialize_camera_matrix ncm 0).1 = (initialize_camera_matrix ncm 1).1 ∧
    (initialize_camera_matrix ncm 2).1 = (initialize_camera_matrix ncm 3).1 ∧
    (initialize_camera_matrix ncm 0).1 ≠ (initialize_camera_matrix ncm 2).1 ∧
    (initialize_camera_matrix ncm 0).2 = some zero_distortion ∧
    (initialize_camera_matrix ncm 2).2 = some zero_distortion ∧
    (initialize_camera_matrix ncm 1).2 = some distortion_coefs_nominal ∧
    (initialize_camera_matrix ncm 3).2 = some distortion_coefs_nominal := by
  refine ⟨rfl, rfl, ?_, rfl, rfl, rfl, rfl⟩
  simp only [initialize_camera_matrix]
  norm_num
  exact h

/-- Witness for C7 at a concrete rectified matrix distinct from the raw one
(the shape `cv2.getOptimalNewCameraMatrix` returns for these inputs: same
zero pattern, different focal and center entries). -/
theorem camera_profile_selection_witness :
    ([220.0, 0, 301.8, 0, 237.9, 231.2, 0, 0, 1] : List ℚ) ≠ camera_matrix_raw ∧
    (initialize_camera_matrix [220.0, 0, 301.8, 0, 237.9, 231.2, 0, 0, 1] 0).1 =
      (initialize_camera_matrix [220.0, 0, 301.8, 0, 237.9, 231.2, 0, 0, 1] 1).1 :=
  ⟨by norm_num [camera_matrix_raw],
   (camera_profile_selection [220.0, 0, 301.8, 0, 237.9, 231.2, 0, 0, 1]
     (by norm_num [camera_matrix_raw])).1⟩

/-- Claim C3 (code evaluated at the failing input): for the out-of-range
profile id 5, construction does not fail — it returns an estimator whose
`camera_matrix` and `distortion_coefs` are still `None`.  The source has no
raise statement on this path, so no `ConfigurationError` exists and the
misconfiguration only surfaces when `get_pose` later hands `None` matrices
to the solver, contradicting the claim that the failure is never deferred
to per-frame operation. -/
theorem init_invalid_profile_returns_estimator :
    (PoseEstimator.init 5 1 3 8 (0.0125 : ℚ) (1 : ℝ) 5 camera_matrix_raw).camera_matrix
        = none ∧
    (PoseEstimator.init 5 1 3 8 (0.0125 : ℚ) (1 : ℝ) 5 camera_matrix_raw).distortion_coefs
        = none := by
  constructor <;> rfl

/-- Claim C1: whenever the grid is detected and the solver returns rotation
`rvec` and translation `tvec`, `get_pose` reports position
`(y_bumper - D*cos(theta), 0, x_bumper + D*sin(theta))` with
`theta = rvec[1]`, `x_bumper = tvec[0]`, `y_bumper = tvec[2]`,
`D` the configured target distance, the middle coordinate zero, and
heading `-theta` in degrees. -/
theorem get_pose_target_frame {Img : Type} (cv : CV Img) (s : PoseEstimator)
    (obs : Img) (centers : List Pt2) (succ : Bool) (rvec tvec : Fin 3 → ℝ)
    (hfind : cv.findCirclesGrid obs (s.width, s.height) s.detector = (true, centers))
    (hsolve : cv.solvePnP s.circle_pattern centers s.camera_matrix s.distortion_coefs
        = (succ, rvec, tvec)) :
    (PoseEstimator.get_pose cv s obs).2 =
      (true, some ((tvec 2 - s.target_distance * Real.cos (rvec 1), 0,
                    tvec 0 + s.target_distance * Real.sin (rvec 1)),
                   -rad2deg (rvec 1))) := by
  simp [PoseEstimator.get_pose, hfind, hsolve]

/-- Witness for C1, the claim's concrete instance: `theta = 0`, `D = 1`,
`x_bumper = 0`, `y_bumper = 5` give position `(4, 0, 0)` and heading `0`
degrees. -/
theorem get_pose_target_frame_witness :
    (PoseEstimator.get_pose cvFound estimator0 ()).2 =
      (true, some (((4 : ℝ), (0 : ℝ), (0 : ℝ)), (0 : ℝ))) := by
  have h := get_pose_target_frame cvFound estimator0 () [] true rvecZero tvecFive
    rfl rfl
  rw [h]
  norm_num [rvecZero, tvecFive, rad2deg, estimator0, PoseEstimator.init]

/-- Claim C5: when the detector reports no detection, `get_pose` returns
`(false, none)` (the not-found result, no exception: the embedding is a
total function), and the result does not depend on the solver at all — the
same call with any other `solvePnP` returns the identical value, so the
solver is never invoked. -/
theorem get_pose_not_found {Img : Type} (cv : CV Img)
    (sp : List Pt3 → List Pt2 → Option (List ℚ) → Option (List ℚ) →
      Bool × (Fin 3 → ℝ) × (Fin 3 → ℝ))
    (s : PoseEstimator) (obs : Img) (pts : List Pt2)
    (hfind : cv.findCirclesGrid obs (s.width, s.height) s.detector = (false, pts)) :
    (PoseEstimator.get_pose cv s obs).2 = (false, none) ∧
    PoseEstimator.get_pose { cv with solvePnP := sp } s obs =
      PoseEstimator.get_pose cv s obs := by
  constructor
  · simp [PoseEstimator.get_pose, hfind]
  · simp [PoseEstimator.get_pose, hfind]

/-- Witness for C5: concrete externals that do not detect the grid. -/
theorem get_pose_not_found_witness :
    (PoseEstimator.get_pose cvNotFound estimator0 ()).2 = (false, none) :=
  (get_pose_not_found cvNotFound (fun _ _ _ _ => (false, rvecZero, rvecZero))
    estimator0 () [] rfl).1

/-- Claim C4 (code evaluated at the failing input): with the grid detected
but the solver's success flag `false`, `get_pose` still returns
`found = true` with a pose computed from the failed solver's output —
not the not-found-like result the claim describes.  The source discards
the success flag (`_, rotation_vector, translation_vector = cv2.solvePnP`),
so no `SolveFailure` path exists. -/
theorem get_pose_ignores_solver_failure :
    (PoseEstimator.get_pose cvSolveFailed estimator0 ()).2 =
      (true, some (((4 : ℝ), (0 : ℝ), (0 : ℝ)), (0 : ℝ))) ∧
    ((true, some (((4 : ℝ), (0 : ℝ), (0 : ℝ)), (0 : ℝ))) : PoseResult) ≠
      (false, none) := by
  constructor
  · norm_num [PoseEstimator.get_pose, cvSolveFailed, rvecZero, tvecFive, rad2deg,
      estimator0, PoseEstimator.init]
  · simp

/-- Claim C8: `get_pose` is stateless and purely functional — the returned
state equals the input state in every field, and the result is unchanged
when the advisory frame counter is set to any other value, so the output
depends only on the image and the construction-time configuration. -/
theorem get_pose_stateless {Img : Type} (cv : CV Img) (s : PoseEstimator)
    (obs : Img) (n : ℕ) :
    (PoseEstimator.get_pose cv s obs).1 = s ∧
    (PoseEstimator.get_pose cv { s with counter := n } obs).2 =
      (PoseEstimator.get_pose cv s obs).2 := by
  cases h : (cv.findCirclesGrid obs (s.width, s.height) s.detector).1 <;>
    simp [PoseEstimator.get_pose, h]

/-- Claim C9: on the same detection and identical solver output, the class
method applies the stand-off offset and returns heading `-rad2deg(theta)`,
while the free function returns the raw translation components (in swapped
slots) and heading `+rad2deg(theta)`; at a concrete common input the two
results differ, so the two implementations are divergent. -/
theorem implementations_divergent {Img : Type} (cv : CV Img) (s : PoseEstimator)
    (obs : Img) (centers : List Pt2) (ncm : List ℚ) (succ : Bool)
    (rvec tvec : Fin 3 → ℝ)
    (hfind : cv.findCirclesGrid obs (s.width, s.height) s.detector = (true, centers))
    (hfind8 : cv.findCirclesGrid obs (8, 3) (5, 1) = (true, centers))
    (hsolve : ∀ ops ips cm dc, cv.solvePnP ops ips cm dc = (succ, rvec, tvec)) :
    (PoseEstimator.get_pose cv s obs).2 =
      (true, some ((tvec 2 - s.target_distance * Real.cos (rvec 1), 0,
                    tvec 0 + s.target_distance * Real.sin (rvec 1)),
                   -rad2deg (rvec 1))) ∧
    vsc_get_pose cv ncm obs 0 =
      (true, some ((tvec 0, 0, tvec 2), rad2deg (rvec 1))) ∧
    (PoseEstimator.get_pose cvFound estimator0 ()).2 ≠
      vsc_get_pose cvFound camera_matrix_raw () 0 := by
  refine ⟨?_, ?_, ?_⟩
  · simp [PoseEstimator.get_pose, hfind, hsolve]
  · simp [vsc_get_pose, hfind8, hsolve]
  · have hc : (PoseEstimator.get_pose cvFound estimator0 ()).2 =
        (true, some (((4 : ℝ), (0 : ℝ), (0 : ℝ)), (0 : ℝ))) := by
      norm_num [PoseEstimator.get_pose, cvFound, rvecZero, tvecFive, rad2deg,
        estimator0, PoseEstimator.init]
    have hf : vsc_get_pose cvFound camera_matrix_raw () 0 =
        (true, some (((0 : ℝ), (0 : ℝ), (5 : ℝ)), (0 : ℝ))) := by
      norm_num [vsc_get_pose, cvFound, rvecZero, tvecFive, rad2deg]
    rw [hc, hf]
    norm_num

/-- Witness for C9: the concrete disagreement itself, obtained from the
theorem at the concrete externals. -/
theorem implementations_divergent_witness :
    (PoseEstimator.get_pose cvFound estimator0 ()).2 ≠
      vsc_get_pose cvFound camera_matrix_raw () 0 :=
  (implementations_divergent cvFound estimator0 () [] camera_matrix_raw true
    rvecZero tvecFive rfl rfl (fun _ _ _ _ => rfl)).2.2

/-- Claim C10: when the grid detector reports a detection but the option
argument is outside `{0, 1, 2, 3}` (in particular option 4, which the
class-based estimator accepts), the free `get_pose` returns
`(True, empty)`: a found result carrying no pose data, violating the
validity condition for found results. -/
theorem vsc_get_pose_unrecognized_option {Img : Type} (cv : CV Img)
    (ncm : List ℚ) (obs : Img) (centers : List Pt2) (option : ℤ)
    (hfind : cv.findCirclesGrid obs (8, 3) (5, 1) = (true, centers))
    (h0 : option ≠ 0) (h1 : option ≠ 1) (h2 : option ≠ 2) (h3 : option ≠ 3) :
    vsc_get_pose cv ncm obs option = (true, none) ∧
    ¬ ValidFoundResult (vsc_get_pose cv ncm obs option) := by
  have hmain : vsc_get_pose cv ncm obs option = (true, none) := by
    simp [vsc_get_pose, hfind, h0, h1, h2, h3]
  refine ⟨hmain, ?_⟩
  rw [hmain]
  simp [ValidFoundResult]

/-- Witness for C10 at option 4 with a detecting external. -/
theorem vsc_get_pose_unrecognized_option_witness :
    vsc_get_pose cvFound camera_matrix_raw () 4 = (true, none) :=
  (vsc_get_pose_unrecognized_option cvFound camera_matrix_raw () [] 4 rfl
    (by decide) (by decide) (by decide) (by decide)).1
